import Mathlib

/-!
Verification of the SkyportRush core simulation against its specification.

The definitions below are a shallow embedding of the repository's core
subsystems, translated from the TypeScript source:

* the procedural height field (`CollisionSystem.calculateProceduralHeight`,
  `terrainNoise`, `craterNoise`);
* the collision system (`checkPlaneCollision`, `checkBoxCollision`,
  `checkSphereCollision`, `checkCollision`, `resolveCollision`);
* the alien enemy manager (enemy records, `updateEnemyBehavior`,
  `updateEnemyMovement`, `updateEnemyAttack`, `updateEnemyTerrainCollision`,
  `spawnWave`, `damageEnemy`);
* the weapon system (`WeaponSystem.fire`, `WeaponSystem.update`).

JavaScript numbers are modelled as real numbers.  Calls to `Math.random()`
are modelled by explicit oracle arguments (one real number in [0,1] per
draw), and `Date.now()` by an explicit `now` argument, so that every
function is a mathematical function of its inputs.  Scene-graph and
rendering effects (mesh construction, material flashes, projectile
animation frames, mothership decoration) are presentation concerns with no
influence on the simulated state and are not part of the embedding;
likewise the facing angle (`mesh.rotation.y`) is omitted because no state
read in the core depends on it.
-/

namespace SkyportRush

/-- Three-component vector over the reals, modelling `THREE.Vector3`. -/
structure Vec3 where
  x : ℝ
  y : ℝ
  z : ℝ

namespace Vec3

instance : Add Vec3 := ⟨fun a b => ⟨a.x + b.x, a.y + b.y, a.z + b.z⟩⟩

instance : Sub Vec3 := ⟨fun a b => ⟨a.x - b.x, a.y - b.y, a.z - b.z⟩⟩

instance : SMul ℝ Vec3 := ⟨fun t v => ⟨t * v.x, t * v.y, t * v.z⟩⟩

instance : Zero Vec3 := ⟨⟨0, 0, 0⟩⟩

/-- Dot product, modelling `THREE.Vector3.dot`. -/
def dot (a b : Vec3) : ℝ := a.x * b.x + a.y * b.y + a.z * b.z

/-- Euclidean length, modelling `THREE.Vector3.length`. -/
noncomputable def length (v : Vec3) : ℝ := Real.sqrt (dot v v)

/-- Distance between two points, modelling `THREE.Vector3.distanceTo`. -/
noncomputable def distanceTo (a b : Vec3) : ℝ := length (a - b)

/-- Componentwise linear interpolation, modelling `THREE.Vector3.lerp`:
`this.x += (v.x - this.x) * alpha` for each component. -/
def lerp (a b : Vec3) (alpha : ℝ) : Vec3 := a + alpha • (b - a)

/-- Normalization, modelling `THREE.Vector3.normalize`, which divides by
`length || 1`: the zero vector is left unchanged. -/
noncomputable def normalize (v : Vec3) : Vec3 :=
  if length v = 0 then v else (1 / length v) • v

/-- Scalar lerp, modelling `THREE.MathUtils.lerp`. -/
def lerpScalar (a b t : ℝ) : ℝ := a + (b - a) * t

theorem add_def (a b : Vec3) : a + b = ⟨a.x + b.x, a.y + b.y, a.z + b.z⟩ := rfl

theorem sub_def (a b : Vec3) : a - b = ⟨a.x - b.x, a.y - b.y, a.z - b.z⟩ := rfl

theorem smul_def (t : ℝ) (v : Vec3) : t • v = ⟨t * v.x, t * v.y, t * v.z⟩ := rfl

end Vec3

/-! ## Height Field Provider

Translated from `CollisionSystem` (src/unnamed/part_007, lines 65-90); the
same noise functions appear verbatim in `AlienTerrainGenerator`
(src/unnamed/part_003, lines 716-732).  `craterNoise` calls `Math.random()`
once on the path where the query point lies within 20 units of its 80×80
cell anchor; that draw is the explicit `rand` argument here. -/

/-- Translation of `CollisionSystem.terrainNoise`. -/
noncomputable def terrainNoise (x z : ℝ) : ℝ :=
  Real.sin (x * 2) * Real.cos (z * 1.5) +
    Real.sin (x * 4) * Real.cos (z * 3) * 0.5 +
    Real.sin (x * 8) * Real.cos (z * 6) * 0.25

/-- Translation of `CollisionSystem.craterNoise`.  `rand` is the value of
the `Math.random()` call made during this query. -/
noncomputable def craterNoise (rand x z : ℝ) : ℝ :=
  let craterX : ℝ := (⌊x / 80⌋ : ℤ) * 80
  let craterZ : ℝ := (⌊z / 80⌋ : ℤ) * 80
  let distance := Real.sqrt ((x - craterX) ^ 2 + (z - craterZ) ^ 2)
  if distance < 20 ∧ rand > 0.8 then -(max 0 (8 - distance * 0.4)) else 0

/-- Translation of `CollisionSystem.calculateProceduralHeight`.  `rand` is
the random draw consumed by the `craterNoise` call this query makes. -/
noncomputable def calculateProceduralHeight (rand x z : ℝ) : ℝ :=
  terrainNoise (x * 0.01) (z * 0.01) * 8 +
    terrainNoise (x * 0.005) (z * 0.005) * 15 +
    terrainNoise (x * 0.02) (z * 0.02) * 3 +
    craterNoise rand x z

theorem terrainNoise_zero_left (z : ℝ) : terrainNoise 0 z = 0 := by
  simp [terrainNoise]

theorem craterNoise_origin (rand : ℝ) :
    craterNoise rand 0 0 = if rand > 0.8 then -8 else 0 := by
  have hfl : (⌊(0 : ℝ) / 80⌋ : ℤ) = 0 := by norm_num
  simp only [craterNoise, hfl]
  norm_num

theorem calculateProceduralHeight_origin (rand : ℝ) :
    calculateProceduralHeight rand 0 0 = if rand > 0.8 then -8 else 0 := by
  simp only [calculateProceduralHeight, craterNoise_origin]
  rw [show (0 : ℝ) * 0.01 = 0 by norm_num, show (0 : ℝ) * 0.005 = 0 by norm_num,
    show (0 : ℝ) * 0.02 = 0 by norm_num, terrainNoise_zero_left]
  ring

/-! ## Collision System

Translated from `CollisionSystem` (src/unnamed/part_007).  The repository
only ever registers `plane`, `box` and `sphere` colliders (Game3D.ts
`initGame` / `addTerrainColliders`); the `mesh` collider variant raycasts
against renderer-owned geometry and is never registered, so it is not part
of the embedding. -/

inductive ColliderType where
  | plane
  | box
  | sphere
deriving DecidableEq

/-- Translation of the `Collider` interface. -/
structure Collider where
  type : ColliderType
  position : Vec3
  size : Option Vec3
  radius : Option ℝ
  normal : Option Vec3
  isStatic : Bool
  id : String

/-- Translation of the `CollisionResult` interface. -/
structure CollisionResult where
  hasCollision : Bool
  point : Vec3
  normal : Vec3
  distance : ℝ
  collider : Collider

/-- The freshly initialised result record each check starts from. -/
def emptyResult (c : Collider) : CollisionResult :=
  { hasCollision := false, point := 0, normal := 0, distance := 0, collider := c }

/-- Translation of `CollisionSystem.checkPlaneCollision`.  The ground height
it compares against is `calculateProceduralHeight`, whose random draw is the
explicit `rand` argument. -/
noncomputable def checkPlaneCollision (rand : ℝ) (position : Vec3) (radius : ℝ)
    (collider : Collider) : CollisionResult :=
  let n := collider.normal.getD ⟨0, 1, 0⟩
  let groundHeight := calculateProceduralHeight rand position.x position.z
  let playerBottom := position.y - radius
  if playerBottom ≤ groundHeight then
    { hasCollision := true, point := ⟨position.x, groundHeight, position.z⟩,
      normal := n, distance := groundHeight - playerBottom, collider := collider }
  else
    { hasCollision := false, point := 0, normal := n, distance := 0, collider := collider }

/-- Translation of `CollisionSystem.checkBoxCollision`. -/
noncomputable def checkBoxCollision (position : Vec3) (radius : ℝ)
    (collider : Collider) : CollisionResult :=
  match collider.size with
  | none => emptyResult collider
  | some size =>
    let halfSize := (0.5 : ℝ) • size
    let distance := position - collider.position
    let closest : Vec3 :=
      ⟨max (-halfSize.x) (min halfSize.x distance.x),
       max (-halfSize.y) (min halfSize.y distance.y),
       max (-halfSize.z) (min halfSize.z distance.z)⟩
    let distanceToClosest := (distance - closest).length
    if distanceToClosest ≤ radius then
      { hasCollision := true, point := collider.position + closest,
        normal := (distance - closest).normalize,
        distance := radius - distanceToClosest, collider := collider }
    else emptyResult collider

/-- Translation of `CollisionSystem.checkSphereCollision`.  JavaScript's
`if (!collider.radius) return result` also treats a registered radius of 0
as absent (0 is falsy). -/
noncomputable def checkSphereCollision (position : Vec3) (radius : ℝ)
    (collider : Collider) : CollisionResult :=
  match collider.radius with
  | none => emptyResult collider
  | some cradius =>
    if cradius = 0 then emptyResult collider
    else
      let distance := position.distanceTo collider.position
      let totalRadius := radius + cradius
      if distance ≤ totalRadius then
        let n := (position - collider.position).normalize
        { hasCollision := true, point := collider.position + cradius • n,
          normal := n, distance := totalRadius - distance, collider := collider }
      else emptyResult collider

/-- Translation of `CollisionSystem.checkColliderCollision` (the per-shape
dispatch). -/
noncomputable def checkColliderCollision (rand : ℝ) (position : Vec3) (radius : ℝ)
    (collider : Collider) : CollisionResult :=
  match collider.type with
  | .plane => checkPlaneCollision rand position radius collider
  | .box => checkBoxCollision position radius collider
  | .sphere => checkSphereCollision position radius collider

/-- Translation of `CollisionSystem.checkCollision`: iterate the registered
colliders, returning the first colliding result (first-match policy).  The
oracle `rands` supplies one potential random draw per collider visited
(only plane checks actually consume theirs). -/
noncomputable def checkCollision (rands : ℕ → ℝ) :
    List Collider → Vec3 → ℝ → Option CollisionResult
  | [], _, _ => none
  | c :: rest, position, radius =>
    let result := checkColliderCollision (rands 0) position radius c
    if result.hasCollision then some result
    else checkCollision (fun n => rands (n + 1)) rest position radius

/-- Translation of `CollisionSystem.resolveCollision`.  The TypeScript
mutates `position` and `velocity` in place; the embedding returns the pair
(new position, new velocity). -/
noncomputable def resolveCollision (position velocity : Vec3)
    (collision : CollisionResult) : Vec3 × Vec3 :=
  if collision.hasCollision = true then
    let position' := position + collision.distance • collision.normal
    let velocityInNormal := velocity.dot collision.normal
    let velocity' :=
      if velocityInNormal < 0 then velocity - velocityInNormal • collision.normal
      else velocity
    (position', velocity')
  else (position, velocity)

/-- The ground-plane collider registered by `Game3D.initGame`. -/
def groundCollider : Collider :=
  { type := .plane, position := 0, size := none, radius := none,
    normal := some ⟨0, 1, 0⟩, isStatic := true, id := "ground" }

theorem Vec3.sub_dot (a b c : Vec3) : (a - b).dot c = a.dot c - b.dot c := by
  simp only [Vec3.dot, Vec3.sub_def]; ring

theorem Vec3.smul_dot (t : ℝ) (a b : Vec3) : (t • a).dot b = t * a.dot b := by
  simp only [Vec3.dot, Vec3.smul_def]; ring

theorem Vec3.dot_comm (a b : Vec3) : a.dot b = b.dot a := by
  simp only [Vec3.dot]; ring

/-- C8: for a colliding result, `resolveCollision` moves the position by
exactly `normal × penetrationDistance`; when the velocity points into the
surface (negative dot product with the normal) it subtracts exactly the
normal component, preserving every tangential component, so that for a unit
normal the resulting velocity has zero dot product with the normal; when
the dot product is non-negative the velocity is unchanged. -/
theorem resolveCollision_spec (position velocity : Vec3) (collision : CollisionResult)
    (hc : collision.hasCollision = true) :
    (resolveCollision position velocity collision).1 =
        position + collision.distance • collision.normal ∧
    (0 ≤ velocity.dot collision.normal →
      (resolveCollision position velocity collision).2 = velocity) ∧
    (velocity.dot collision.normal < 0 →
      (resolveCollision position velocity collision).2 =
          velocity - velocity.dot collision.normal • collision.normal ∧
      (∀ t : Vec3, t.dot collision.normal = 0 →
        ((resolveCollision position velocity collision).2).dot t = velocity.dot t) ∧
      (collision.normal.dot collision.normal = 1 →
        ((resolveCollision position velocity collision).2).dot collision.normal = 0)) := by
  have hres : resolveCollision position velocity collision =
      (position + collision.distance • collision.normal,
        if velocity.dot collision.normal < 0 then
          velocity - velocity.dot collision.normal • collision.normal
        else velocity) := by
    simp only [resolveCollision, hc, if_true]
  refine ⟨by rw [hres], ?_, ?_⟩
  · intro h
    rw [hres]
    simp only [if_neg (not_lt.mpr h)]
  · intro h
    rw [hres]
    refine ⟨by simp only [if_pos h], ?_, ?_⟩
    · intro t ht
      simp only [if_pos h]
      show (velocity - velocity.dot collision.normal • collision.normal).dot t =
        velocity.dot t
      rw [Vec3.sub_dot, Vec3.smul_dot, Vec3.dot_comm collision.normal t, ht]
      ring
    · intro hn
      simp only [if_pos h]
      show (velocity - velocity.dot collision.normal • collision.normal).dot
        collision.normal = 0
      rw [Vec3.sub_dot, Vec3.smul_dot, hn]
      ring

/-- Concrete colliding result used to witness `resolveCollision_spec`. -/
def c8Result : CollisionResult :=
  { hasCollision := true, point := 0, normal := ⟨0, 1, 0⟩, distance := 2,
    collider := groundCollider }

theorem resolveCollision_spec_witness :
    (resolveCollision ⟨0, 0, 0⟩ ⟨1, -3, 0⟩ c8Result).1 = ⟨0, 2, 0⟩ ∧
    (resolveCollision ⟨0, 0, 0⟩ ⟨1, -3, 0⟩ c8Result).2 = ⟨1, 0, 0⟩ ∧
    ((resolveCollision ⟨0, 0, 0⟩ ⟨1, -3, 0⟩ c8Result).2).dot ⟨0, 1, 0⟩ = 0 := by
  have h := resolveCollision_spec ⟨0, 0, 0⟩ ⟨1, -3, 0⟩ c8Result rfl
  have hvn : (Vec3.mk 1 (-3) 0).dot c8Result.normal < 0 := by
    norm_num [Vec3.dot, c8Result]
  obtain ⟨h1, _, h3⟩ := h
  obtain ⟨hv, _, hz⟩ := h3 hvn
  refine ⟨?_, ?_, ?_⟩
  · rw [h1]
    norm_num [c8Result, Vec3.add_def, Vec3.smul_def]
  · rw [hv]
    norm_num [c8Result, Vec3.dot, Vec3.sub_def, Vec3.smul_def]
  · have h0 := hz (by norm_num [Vec3.dot, c8Result])
    simpa [c8Result] using h0

/-- C9: the plane collision test reports a collision exactly when the
sphere's bottom `position.y - radius` is at or below the (per-call) ground
height at (x, z), with penetration `distance` equal to ground height minus
sphere bottom; a sphere whose bottom is exactly at ground height collides
with penetration 0. -/
theorem checkPlaneCollision_spec (rand : ℝ) (position : Vec3) (radius : ℝ)
    (c : Collider) :
    ((checkPlaneCollision rand position radius c).hasCollision = true ↔
      position.y - radius ≤ calculateProceduralHeight rand position.x position.z) ∧
    ((checkPlaneCollision rand position radius c).hasCollision = true →
      (checkPlaneCollision rand position radius c).distance =
        calculateProceduralHeight rand position.x position.z - (position.y - radius)) ∧
    (position.y - radius = calculateProceduralHeight rand position.x position.z →
      (checkPlaneCollision rand position radius c).hasCollision = true ∧
      (checkPlaneCollision rand position radius c).distance = 0) := by
  by_cases h : position.y - radius ≤ calculateProceduralHeight rand position.x position.z
  · have hres : checkPlaneCollision rand position radius c =
        { hasCollision := true,
          point := ⟨position.x, calculateProceduralHeight rand position.x position.z,
            position.z⟩,
          normal := c.normal.getD ⟨0, 1, 0⟩,
          distance := calculateProceduralHeight rand position.x position.z -
            (position.y - radius),
          collider := c } := by
      simp only [checkPlaneCollision, if_pos h]
    refine ⟨⟨fun _ => h, fun _ => by rw [hres]⟩, fun _ => by rw [hres], fun he => ?_⟩
    refine ⟨by rw [hres], ?_⟩
    rw [hres]
    show calculateProceduralHeight rand position.x position.z -
      (position.y - radius) = 0
    rw [he]
    ring
  · have hres : checkPlaneCollision rand position radius c =
        { hasCollision := false, point := 0, normal := c.normal.getD ⟨0, 1, 0⟩,
          distance := 0, collider := c } := by
      simp only [checkPlaneCollision, if_neg h]
    refine ⟨⟨fun hcoll => ?_, fun hle => absurd hle h⟩, fun hcoll => ?_,
      fun he => absurd (le_of_eq he) h⟩
    · rw [hres] at hcoll
      exact absurd hcoll (by simp)
    · rw [hres] at hcoll
      exact absurd hcoll (by simp)

theorem checkPlaneCollision_spec_witness :
    (checkPlaneCollision 0 ⟨0, 0.5, 0⟩ 0.5 groundCollider).hasCollision = true ∧
    (checkPlaneCollision 0 ⟨0, 0.5, 0⟩ 0.5 groundCollider).distance = 0 :=
  (checkPlaneCollision_spec 0 ⟨0, 0.5, 0⟩ 0.5 groundCollider).2.2 (by
    show (0.5 : ℝ) - 0.5 = calculateProceduralHeight 0 0 0
    rw [calculateProceduralHeight_origin,
      if_neg (show ¬((0 : ℝ) > 0.8) by norm_num)]
    norm_num)

/-! ## Alien Enemy Manager

Translated from `AlienEnemyManager` (src/unnamed/part_006).  The manager's
scene-graph work (placeholder meshes, model loading, death particles,
projectile animation frames, damage-flash materials, mothership decoration)
has no influence on the simulated enemy state and is not embedded; the
facing angle `mesh.rotation.y` is likewise omitted because nothing in the
core reads it back.  `Math.random()` draws are explicit oracle arguments,
`Date.now()` is the explicit `now` argument (milliseconds), and the
injected `terrainHeightFunction` is the `hf` argument (`none` models the
un-injected `null`, which makes `getTerrainHeightAtPosition` return 0). -/

inductive EnemyType where
  | scout
  | warrior
  | heavy
  | flyer
deriving DecidableEq

inductive Behavior where
  | patrol
  | chase
  | attack
  | retreat
deriving DecidableEq

/-- Archetype base health from `createEnemyMesh`. -/
def enemyHealth : EnemyType → ℝ
  | .scout => 50
  | .warrior => 100
  | .heavy => 200
  | .flyer => 75

/-- Archetype speed from `createEnemyMesh`. -/
def enemySpeed : EnemyType → ℝ
  | .scout => 12
  | .warrior => 8
  | .heavy => 4
  | .flyer => 15

/-- Archetype attack damage from `createEnemyMesh`. -/
def enemyAttackDamage : EnemyType → ℝ
  | .scout => 15
  | .warrior => 25
  | .heavy => 40
  | .flyer => 20

/-- Archetype detection range from `createEnemyMesh`. -/
def enemyDetectionRange : EnemyType → ℝ
  | .scout => 25
  | .warrior => 20
  | .heavy => 15
  | .flyer => 30

/-- Archetype attack range from `createEnemyMesh`. -/
def enemyAttackRange : EnemyType → ℝ
  | .scout => 8
  | .warrior => 6
  | .heavy => 10
  | .flyer => 12

/-- Translation of `getEnemyHeightOffset`. -/
def getEnemyHeightOffset : EnemyType → ℝ
  | .scout => 1.0
  | .warrior => 1.5
  | .heavy => 2.0
  | .flyer => 15

/-- Translation of the `AlienEnemy` interface (minus the `mesh` handle;
`position` is `mesh.position`). -/
structure AlienEnemy where
  position : Vec3
  health : ℝ
  maxHealth : ℝ
  speed : ℝ
  lastAttack : ℝ
  type : EnemyType
  id : String
  destroyed : Bool
  attackDamage : ℝ
  detectionRange : ℝ
  attackRange : ℝ
  behavior : Behavior
  patrolTarget : Option Vec3
  lastPosition : Vec3
  flyingHeight : Option ℝ
  circleRadius : Option ℝ
  circleAngle : Option ℝ

/-- Translation of `createEnemyMesh`: the enemy record as first constructed
(`spawnEnemy` then positions it).  `count` is the manager's `enemyCount`
counter used to mint the id. -/
def createEnemy (ty : EnemyType) (count : ℕ) : AlienEnemy :=
  { position := 0, health := enemyHealth ty, maxHealth := enemyHealth ty,
    speed := enemySpeed ty, lastAttack := 0, type := ty,
    id := "enemy_" ++ toString count, destroyed := false,
    attackDamage := enemyAttackDamage ty,
    detectionRange := enemyDetectionRange ty,
    attackRange := enemyAttackRange ty, behavior := .patrol,
    patrolTarget := none, lastPosition := 0, flyingHeight := none,
    circleRadius := none, circleAngle := none }

/-- Translation of `getTerrainHeightAtPosition`: the injected height
function when present, else the default ground level 0. -/
def getTerrainHeightAtPosition (hf : Option (ℝ → ℝ → ℝ)) (x z : ℝ) : ℝ :=
  match hf with
  | some f => f x z
  | none => 0

/-- JavaScript `v || d` on an optional number: `none`, and the falsy value
0, both yield the default. -/
noncomputable def jsOr (v : Option ℝ) (d : ℝ) : ℝ :=
  match v with
  | none => d
  | some r => if r = 0 then d else r

/-- The behaviour-state value computed by `updateEnemyBehavior`'s
distance-threshold logic, as a function of archetype, previous state,
distance to the player and the agent's ranges. -/
noncomputable def behaviorState (ty : EnemyType) (b : Behavior)
    (d det att : ℝ) : Behavior :=
  if ty = .flyer then
    if d < 10 then .retreat else if d > 25 then .chase else .attack
  else
    match b with
    | .patrol => if d ≤ det then .chase else .patrol
    | .chase =>
      if d > det * 1.5 then .patrol else if d ≤ att then .attack else .chase
    | .attack => if d > att * 1.2 then .chase else .attack
    | .retreat => .retreat

/-- Translation of `updateEnemyBehavior`.  `r1, r2` are the `Math.random()`
draws used for the patrol-target height query, `r3, r4` those used for the
new patrol-target coordinates (the code draws four times). -/
noncomputable def updateEnemyBehavior (hf : Option (ℝ → ℝ → ℝ))
    (e : AlienEnemy) (playerPosition : Vec3) (r1 r2 r3 r4 : ℝ) : AlienEnemy :=
  let distanceToPlayer := e.position.distanceTo playerPosition
  if e.type = .flyer then
    { e with behavior :=
        if distanceToPlayer < 10 then .retreat
        else if distanceToPlayer > 25 then .chase
        else .attack }
  else
    match e.behavior with
    | .patrol =>
      if distanceToPlayer ≤ e.detectionRange then { e with behavior := .chase }
      else
        match e.patrolTarget with
        | some pt =>
          if e.position.distanceTo pt < 2 then
            let terrainHeight := getTerrainHeightAtPosition hf
              (e.position.x + (r1 - 0.5) * 40) (e.position.z + (r2 - 0.5) * 40)
            { e with
                patrolTarget := some ⟨e.position.x + (r3 - 0.5) * 40,
                  terrainHeight, e.position.z + (r4 - 0.5) * 40⟩ }
          else e
        | none => e
    | .chase =>
      if distanceToPlayer > e.detectionRange * 1.5 then { e with behavior := .patrol }
      else if distanceToPlayer ≤ e.attackRange then { e with behavior := .attack }
      else e
    | .attack =>
      if distanceToPlayer > e.attackRange * 1.2 then { e with behavior := .chase }
      else e
    | .retreat => e

/-- Translation of `updateEnemyMovement` (facing-angle smoothing omitted:
no simulated state reads it). -/
noncomputable def updateEnemyMovement (hf : Option (ℝ → ℝ → ℝ))
    (e : AlienEnemy) (deltaTime : ℝ) (playerPosition : Vec3) : AlienEnemy :=
  let targetOpt : Option Vec3 :=
    if e.type = .flyer then
      match e.behavior with
      | .retreat =>
        let awayDirection := Vec3.normalize
          ⟨e.position.x - playerPosition.x, 0, e.position.z - playerPosition.z⟩
        some (e.position + (5 : ℝ) • awayDirection)
      | .chase =>
        let towardDirection := Vec3.normalize
          ⟨playerPosition.x - e.position.x, 0, playerPosition.z - e.position.z⟩
        some (e.position + (3 : ℝ) • towardDirection)
      | _ => some e.position
    else
      match e.behavior with
      | .patrol => some (e.patrolTarget.getD e.position)
      | .chase => some ⟨playerPosition.x,
          getTerrainHeightAtPosition hf playerPosition.x playerPosition.z,
          playerPosition.z⟩
      | .attack => some ⟨playerPosition.x,
          getTerrainHeightAtPosition hf playerPosition.x playerPosition.z,
          playerPosition.z⟩
      | .retreat => none
  match targetOpt with
  | none => e
  | some targetPosition =>
    let direction0 := targetPosition - e.position
    let direction : Vec3 :=
      if e.type = .flyer then direction0 else ⟨direction0.x, 0, direction0.z⟩
    if direction.length > 0.5 then
      let movement := (e.speed * deltaTime) • direction.normalize
      let newPosition := e.position + movement
      { e with position := e.position.lerp newPosition 0.8 }
    else e

/-- Translation of `updateEnemyAttack` (the spawned projectile is a
scene-side transient; the state effect is the cooldown timestamp). -/
noncomputable def updateEnemyAttack (e : AlienEnemy) (now : ℝ)
    (playerPosition : Vec3) : AlienEnemy :=
  if e.behavior ≠ .attack then e
  else
    let distance := e.position.distanceTo playerPosition
    let attackCooldown : ℝ := if e.type = .flyer then 1500 else 2000
    if distance ≤ e.attackRange ∧ now - e.lastAttack > attackCooldown then
      { e with lastAttack := now }
    else e

/-- Translation of `updateEnemyTerrainCollision`. -/
noncomputable def updateEnemyTerrainCollision (hf : Option (ℝ → ℝ → ℝ))
    (now : ℝ) (e : AlienEnemy) : AlienEnemy :=
  if e.type = .flyer then
    let terrainHeight := getTerrainHeightAtPosition hf e.position.x e.position.z
    let circleAngle := jsOr e.circleAngle 0 + e.speed * 0.01
    let circleRadius := jsOr e.circleRadius 15
    let targetX := e.position.x + Real.cos circleAngle * circleRadius * 0.1
    let targetZ := e.position.z + Real.sin circleAngle * circleRadius * 0.1
    let targetHeight := terrainHeight + jsOr e.flyingHeight 15
    { e with
        position := ⟨Vec3.lerpScalar e.position.x targetX 0.02,
          Vec3.lerpScalar e.position.y targetHeight 0.05 +
            Real.sin (now * 0.003 + circleAngle) * 1,
          Vec3.lerpScalar e.position.z targetZ 0.02⟩,
        circleAngle := some circleAngle }
  else
    let terrainHeight := getTerrainHeightAtPosition hf e.position.x e.position.z
    { e with position := ⟨e.position.x,
        terrainHeight + getEnemyHeightOffset e.type, e.position.z⟩ }

/-- One per-enemy pass of `AlienEnemyManager.update`'s forEach body, in the
source order: behaviour, movement, attack, terrain collision. -/
noncomputable def updateEnemyAlive (hf : Option (ℝ → ℝ → ℝ))
    (deltaTime : ℝ) (playerPosition : Vec3) (now : ℝ) (r1 r2 r3 r4 : ℝ)
    (e : AlienEnemy) : AlienEnemy :=
  updateEnemyTerrainCollision hf now
    (updateEnemyAttack
      (updateEnemyMovement hf
        (updateEnemyBehavior hf e playerPosition r1 r2 r3 r4)
        deltaTime playerPosition)
      now playerPosition)

/-- The forEach body including its dead-enemy guard
(`if (enemy.health <= 0 || enemy.destroyed) return`). -/
noncomputable def tickEnemy (hf : Option (ℝ → ℝ → ℝ)) (deltaTime : ℝ)
    (playerPosition : Vec3) (now : ℝ) (r1 r2 r3 r4 : ℝ)
    (e : AlienEnemy) : AlienEnemy :=
  if e.health ≤ 0 ∨ e.destroyed then e
  else updateEnemyAlive hf deltaTime playerPosition now r1 r2 r3 r4 e

/-- The enemy-list part of `AlienEnemyManager.update`: per-enemy tick then
the destroyed-enemy filter pass.  `rands` supplies the four potential
random draws per enemy. -/
noncomputable def updateEnemies (hf : Option (ℝ → ℝ → ℝ)) (deltaTime : ℝ)
    (playerPosition : Vec3) (now : ℝ) (rands : ℕ → ℝ × ℝ × ℝ × ℝ) :
    List AlienEnemy → List AlienEnemy
  | [] => []
  | e :: rest =>
    let r := rands 0
    let e' := tickEnemy hf deltaTime playerPosition now r.1 r.2.1 r.2.2.1 r.2.2.2 e
    let restUpd := updateEnemies hf deltaTime playerPosition now
      (fun n => rands (n + 1)) rest
    if e'.health ≤ 0 ∨ e'.destroyed then restUpd else e' :: restUpd

/-- Effect of `damageEnemy` on the one matching enemy record. -/
noncomputable def damageEnemyOne (e : AlienEnemy) (damage : ℝ) : AlienEnemy :=
  let health' := e.health - damage
  { e with
    health := health',
    destroyed := if health' ≤ 0 then true else e.destroyed }

/-- Translation of `damageEnemy`: find the first enemy with the given id;
if it exists and is not destroyed, apply the damage (material flash is
scene-side). -/
noncomputable def damageEnemy : List AlienEnemy → String → ℝ → List AlienEnemy
  | [], _, _ => []
  | e :: rest, enemyId, damage =>
    if e.id = enemyId then
      (if e.destroyed then e else damageEnemyOne e damage) :: rest
    else e :: damageEnemy rest enemyId damage

/-- The first three stages of the per-enemy forEach body (behaviour,
movement, attack), i.e. the enemy state just before
`updateEnemyTerrainCollision` runs. -/
noncomputable def preTerrainUpdate (hf : Option (ℝ → ℝ → ℝ)) (deltaTime : ℝ)
    (playerPosition : Vec3) (now : ℝ) (r1 r2 r3 r4 : ℝ)
    (e : AlienEnemy) : AlienEnemy :=
  updateEnemyAttack
    (updateEnemyMovement hf
      (updateEnemyBehavior hf e playerPosition r1 r2 r3 r4)
      deltaTime playerPosition)
    now playerPosition

theorem updateEnemyAlive_eq (hf : Option (ℝ → ℝ → ℝ)) (deltaTime : ℝ)
    (playerPosition : Vec3) (now : ℝ) (r1 r2 r3 r4 : ℝ) (e : AlienEnemy) :
    updateEnemyAlive hf deltaTime playerPosition now r1 r2 r3 r4 e =
      updateEnemyTerrainCollision hf now
        (preTerrainUpdate hf deltaTime playerPosition now r1 r2 r3 r4 e) := rfl

theorem Vec3.distanceTo_self (a : Vec3) : a.distanceTo a = 0 := by
  simp [Vec3.distanceTo, Vec3.length, Vec3.sub_def, Vec3.dot]

set_option maxHeartbeats 1600000 in
/-- `updateEnemyBehavior` only writes the `behavior` field (with the value
`behaviorState` describes) and possibly the `patrolTarget` field. -/
theorem updateEnemyBehavior_eq (hf : Option (ℝ → ℝ → ℝ)) (e : AlienEnemy)
    (pp : Vec3) (r1 r2 r3 r4 : ℝ) :
    ∃ pt : Option Vec3, updateEnemyBehavior hf e pp r1 r2 r3 r4 =
      { e with
        behavior := behaviorState e.type e.behavior (e.position.distanceTo pp)
          e.detectionRange e.attackRange,
        patrolTarget := pt } := by
  obtain ⟨pos, h, mh, sp, la, ty, idv, de, ad, dr, ar, beh, pt, lp, fh, cr, ca⟩ := e
  cases ty <;> cases beh <;> cases pt <;>
    simp only [updateEnemyBehavior, behaviorState] <;>
    split_ifs <;>
    exact ⟨_, rfl⟩

/-- `updateEnemyMovement` only writes the `position` field. -/
theorem updateEnemyMovement_eq (hf : Option (ℝ → ℝ → ℝ)) (e : AlienEnemy)
    (deltaTime : ℝ) (pp : Vec3) :
    ∃ p : Vec3, updateEnemyMovement hf e deltaTime pp = { e with position := p } := by
  obtain ⟨pos, h, mh, sp, la, ty, idv, de, ad, dr, ar, beh, pt, lp, fh, cr, ca⟩ := e
  cases ty <;> cases beh <;> cases pt <;>
    simp only [updateEnemyMovement, Option.getD] <;>
    (try split) <;>
    (try split_ifs) <;>
    exact ⟨_, rfl⟩

/-- `updateEnemyAttack` only writes the `lastAttack` field. -/
theorem updateEnemyAttack_eq (e : AlienEnemy) (now : ℝ) (pp : Vec3) :
    ∃ t : ℝ, updateEnemyAttack e now pp = { e with lastAttack := t } := by
  obtain ⟨pos, h, mh, sp, la, ty, idv, de, ad, dr, ar, beh, pt, lp, fh, cr, ca⟩ := e
  simp only [updateEnemyAttack]
  split_ifs <;> exact ⟨_, rfl⟩

/-- C2: after one per-enemy update tick, an alive ground-archetype agent
(scout, warrior, heavy) has its y position snapped to the terrain height
function at its final (x, z) plus its archetype height offset; a flyer is
exempt and instead lerps its altitude 5% toward the target altitude
terrain-height + flyingHeight, plus the sinusoidal bob term. -/
theorem tickEnemy_ground_following (hf : Option (ℝ → ℝ → ℝ))
    (deltaTime now r1 r2 r3 r4 : ℝ) (playerPosition : Vec3) (e : AlienEnemy)
    (hhealth : 0 < e.health) (hdest : e.destroyed = false) :
    (e.type ≠ .flyer →
      (tickEnemy hf deltaTime playerPosition now r1 r2 r3 r4 e).position.y =
        getTerrainHeightAtPosition hf
          (tickEnemy hf deltaTime playerPosition now r1 r2 r3 r4 e).position.x
          (tickEnemy hf deltaTime playerPosition now r1 r2 r3 r4 e).position.z +
          getEnemyHeightOffset e.type) ∧
    (e.type = .flyer →
      (tickEnemy hf deltaTime playerPosition now r1 r2 r3 r4 e).position.y =
        Vec3.lerpScalar
          (preTerrainUpdate hf deltaTime playerPosition now r1 r2 r3 r4 e).position.y
          (getTerrainHeightAtPosition hf
            (preTerrainUpdate hf deltaTime playerPosition now r1 r2 r3 r4 e).position.x
            (preTerrainUpdate hf deltaTime playerPosition now r1 r2 r3 r4 e).position.z +
            jsOr (preTerrainUpdate hf deltaTime playerPosition now r1 r2 r3 r4 e).flyingHeight 15)
          0.05 +
        Real.sin (now * 0.003 +
          (jsOr (preTerrainUpdate hf deltaTime playerPosition now r1 r2 r3 r4 e).circleAngle 0 +
            (preTerrainUpdate hf deltaTime playerPosition now r1 r2 r3 r4 e).speed * 0.01)) * 1) := by
  have halive : ¬(e.health ≤ 0 ∨ e.destroyed = true) :=
    not_or.mpr ⟨not_le.mpr hhealth, by simp [hdest]⟩
  have htick : tickEnemy hf deltaTime playerPosition now r1 r2 r3 r4 e =
      updateEnemyTerrainCollision hf now
        (preTerrainUpdate hf deltaTime playerPosition now r1 r2 r3 r4 e) := by
    unfold tickEnemy
    rw [if_neg halive, updateEnemyAlive_eq]
  have hmty : (preTerrainUpdate hf deltaTime playerPosition now r1 r2 r3 r4 e).type
      = e.type := by
    obtain ⟨pt1, hb⟩ := updateEnemyBehavior_eq hf e playerPosition r1 r2 r3 r4
    obtain ⟨p2, hmv⟩ := updateEnemyMovement_eq hf
      (updateEnemyBehavior hf e playerPosition r1 r2 r3 r4) deltaTime playerPosition
    obtain ⟨t3, ha⟩ := updateEnemyAttack_eq
      (updateEnemyMovement hf (updateEnemyBehavior hf e playerPosition r1 r2 r3 r4)
        deltaTime playerPosition) now playerPosition
    unfold preTerrainUpdate
    rw [ha, hmv, hb]
  constructor
  · intro hty
    have hcond : ¬((preTerrainUpdate hf deltaTime playerPosition now r1 r2 r3 r4 e).type
        = EnemyType.flyer) := by
      rw [hmty]; exact hty
    rw [htick]
    simp only [updateEnemyTerrainCollision]
    rw [if_neg hcond]
    rw [hmty]
  · intro hty
    have hcond : (preTerrainUpdate hf deltaTime playerPosition now r1 r2 r3 r4 e).type
        = EnemyType.flyer := by
      rw [hmty]; exact hty
    rw [htick]
    simp only [updateEnemyTerrainCollision]
    rw [if_pos hcond]

theorem tickEnemy_ground_following_witness :
    0 < (createEnemy .scout 0).health ∧
    (createEnemy .scout 0).destroyed = false ∧
    ((createEnemy .scout 0).type ≠ .flyer →
      (tickEnemy none 1 0 0 0 0 0 0 (createEnemy .scout 0)).position.y =
        getTerrainHeightAtPosition none
          (tickEnemy none 1 0 0 0 0 0 0 (createEnemy .scout 0)).position.x
          (tickEnemy none 1 0 0 0 0 0 0 (createEnemy .scout 0)).position.z +
          getEnemyHeightOffset (createEnemy .scout 0).type) :=
  ⟨by norm_num [createEnemy, enemyHealth], rfl,
    (tickEnemy_ground_following none 1 0 0 0 0 0 (0 : Vec3) (createEnemy .scout 0)
      (by norm_num [createEnemy, enemyHealth]) rfl).1⟩

set_option linter.unnecessarySeqFocus false in
/-- The ground-archetype transition table of `behaviorState`, for any
positive attack range not exceeding the detection range (true of every
ground archetype's stats). -/
theorem behaviorState_ground_spec (ty : EnemyType) (b : Behavior) (d det att : ℝ)
    (hty : ¬ ty = EnemyType.flyer) (hpos : 0 < att) (hrange : att ≤ det) :
    (b = .patrol →
      (behaviorState ty b d det att = .chase ↔ d ≤ det) ∧
      (¬ d ≤ det → behaviorState ty b d det att = .patrol)) ∧
    (b = .chase →
      (behaviorState ty b d det att = .attack ↔ d ≤ att) ∧
      (behaviorState ty b d det att = .patrol ↔ d > det * 1.5) ∧
      (¬ d ≤ att → ¬ d > det * 1.5 → behaviorState ty b d det att = .chase)) ∧
    (b = .attack →
      (behaviorState ty b d det att = .chase ↔ d > att * 1.2) ∧
      (¬ d > att * 1.2 → behaviorState ty b d det att = .attack)) := by
  refine ⟨fun hb => ?_, fun hb => ?_, fun hb => ?_⟩
  all_goals subst hb
  all_goals simp only [behaviorState, if_neg hty]
  · split_ifs with hc <;> constructor <;> simp_all
  · split_ifs with h1 h2 <;> refine ⟨?_, ?_, ?_⟩ <;> simp_all <;> linarith
  · split_ifs with hc <;> constructor <;> simp_all

/-- C3: for a ground-archetype agent (scout, warrior or heavy, with its
archetype stats), one behaviour evaluation maps patrol to chase iff
distance ≤ detectionRange (inclusive), chase to attack iff distance ≤
attackRange (inclusive), chase to patrol iff distance > 1.5 ×
detectionRange, attack to chase iff distance > 1.2 × attackRange, and
leaves the state unchanged otherwise. -/
theorem updateEnemyBehavior_ground_transitions (hf : Option (ℝ → ℝ → ℝ))
    (e : AlienEnemy) (pp : Vec3) (r1 r2 r3 r4 d : ℝ)
    (hd : d = e.position.distanceTo pp)
    (hty : e.type = .scout ∨ e.type = .warrior ∨ e.type = .heavy)
    (hdet : e.detectionRange = enemyDetectionRange e.type)
    (hatt : e.attackRange = enemyAttackRange e.type) :
    (e.behavior = .patrol →
      ((updateEnemyBehavior hf e pp r1 r2 r3 r4).behavior = .chase ↔
        d ≤ e.detectionRange) ∧
      (¬ d ≤ e.detectionRange →
        (updateEnemyBehavior hf e pp r1 r2 r3 r4).behavior = .patrol)) ∧
    (e.behavior = .chase →
      ((updateEnemyBehavior hf e pp r1 r2 r3 r4).behavior = .attack ↔
        d ≤ e.attackRange) ∧
      ((updateEnemyBehavior hf e pp r1 r2 r3 r4).behavior = .patrol ↔
        d > e.detectionRange * 1.5) ∧
      (¬ d ≤ e.attackRange → ¬ d > e.detectionRange * 1.5 →
        (updateEnemyBehavior hf e pp r1 r2 r3 r4).behavior = .chase)) ∧
    (e.behavior = .attack →
      ((updateEnemyBehavior hf e pp r1 r2 r3 r4).behavior = .chase ↔
        d > e.attackRange * 1.2) ∧
      (¬ d > e.attackRange * 1.2 →
        (updateEnemyBehavior hf e pp r1 r2 r3 r4).behavior = .attack)) := by
  obtain ⟨pt1, hb⟩ := updateEnemyBehavior_eq hf e pp r1 r2 r3 r4
  have hbeh : (updateEnemyBehavior hf e pp r1 r2 r3 r4).behavior =
      behaviorState e.type e.behavior d e.detectionRange e.attackRange := by
    rw [hb, hd]
  have hflyer : ¬ e.type = EnemyType.flyer := by
    rcases hty with h | h | h <;> simp [h]
  have hpos : 0 < e.attackRange := by
    rw [hatt]; rcases hty with h | h | h <;> rw [h] <;> norm_num [enemyAttackRange]
  have hrange : e.attackRange ≤ e.detectionRange := by
    rw [hatt, hdet]
    rcases hty with h | h | h <;> rw [h] <;>
      norm_num [enemyAttackRange, enemyDetectionRange]
  rw [hbeh]
  exact behaviorState_ground_spec e.type e.behavior d e.detectionRange e.attackRange
    hflyer hpos hrange

theorem updateEnemyBehavior_ground_transitions_witness :
    (updateEnemyBehavior none (createEnemy .scout 0) 0 0 0 0 0).behavior =
      .chase := by
  have h := updateEnemyBehavior_ground_transitions none (createEnemy .scout 0)
    0 0 0 0 0 0 (Vec3.distanceTo_self 0).symm (Or.inl rfl) rfl rfl
  exact (h.1 rfl).1.mpr (by norm_num [createEnemy, enemyDetectionRange])

/-- C4: a flyer's behaviour after one evaluation is a function of the
distance to the player alone (the previous state does not appear): retreat
when closer than 10, chase when farther than 25, attack otherwise. -/
theorem updateEnemyBehavior_flyer_spec (hf : Option (ℝ → ℝ → ℝ))
    (e : AlienEnemy) (pp : Vec3) (r1 r2 r3 r4 : ℝ) (hty : e.type = .flyer) :
    (updateEnemyBehavior hf e pp r1 r2 r3 r4).behavior =
      if e.position.distanceTo pp < 10 then .retreat
      else if e.position.distanceTo pp > 25 then .chase
      else .attack := by
  obtain ⟨pt1, hb⟩ := updateEnemyBehavior_eq hf e pp r1 r2 r3 r4
  have hbeh : (updateEnemyBehavior hf e pp r1 r2 r3 r4).behavior =
      behaviorState e.type e.behavior (e.position.distanceTo pp)
        e.detectionRange e.attackRange := by
    rw [hb]
  rw [hbeh]
  simp only [behaviorState, if_pos hty]

theorem updateEnemyBehavior_flyer_spec_witness :
    (createEnemy .flyer 0).type = .flyer ∧
    (updateEnemyBehavior none (createEnemy .flyer 0) 0 0 0 0 0).behavior =
      .retreat := by
  refine ⟨rfl, ?_⟩
  rw [updateEnemyBehavior_flyer_spec none (createEnemy .flyer 0) 0 0 0 0 0 rfl]
  have hd : (createEnemy .flyer 0).position.distanceTo 0 = 0 :=
    Vec3.distanceTo_self 0
  rw [hd, if_pos (by norm_num : (0 : ℝ) < 10)]

/-- Two evaluations of `behaviorState` at the same distance reach a fixed
point: a third evaluation changes nothing (for any positive attack range
not exceeding the detection range, true of every archetype's stats). -/
theorem behaviorState_stable (ty : EnemyType) (b : Behavior) (d det att : ℝ)
    (hpos : 0 < att) (hrange : att ≤ det) :
    behaviorState ty
        (behaviorState ty (behaviorState ty b d det att) d det att) d det att =
      behaviorState ty (behaviorState ty b d det att) d det att := by
  by_cases hty : ty = EnemyType.flyer
  · simp only [behaviorState, if_pos hty]
  · cases b <;>
      by_cases h1 : d ≤ det <;> by_cases h2 : d ≤ att <;>
      by_cases h3 : d > det * 1.5 <;> by_cases h4 : d > att * 1.2 <;>
      simp [behaviorState, hty, h1, h2, h3, h4] <;> linarith

/-- C5 (counterexample to idempotence): a scout in patrol at distance 0
from the player moves to chase after one behaviour evaluation, but to
attack after two evaluations at the same distance. -/
theorem updateEnemyBehavior_not_idempotent :
    (updateEnemyBehavior none
        (updateEnemyBehavior none (createEnemy .scout 0) 0 0 0 0 0)
        0 0 0 0 0).behavior ≠
      (updateEnemyBehavior none (createEnemy .scout 0) 0 0 0 0 0).behavior := by
  obtain ⟨p1, h1⟩ := updateEnemyBehavior_eq none (createEnemy .scout 0) 0 0 0 0 0
  have hd : (createEnemy .scout 0).position.distanceTo 0 = 0 :=
    Vec3.distanceTo_self 0
  have hS1 : behaviorState (createEnemy .scout 0).type
      (createEnemy .scout 0).behavior
      ((createEnemy .scout 0).position.distanceTo 0)
      (createEnemy .scout 0).detectionRange
      (createEnemy .scout 0).attackRange = .chase := by
    rw [hd]
    show behaviorState .scout .patrol 0 (enemyDetectionRange .scout)
      (enemyAttackRange .scout) = .chase
    have hns : ¬(EnemyType.scout = EnemyType.flyer) := by simp
    simp only [behaviorState, if_neg hns]
    norm_num [enemyDetectionRange]
  have hb1 : (updateEnemyBehavior none (createEnemy .scout 0) 0 0 0 0 0).behavior
      = .chase := by
    rw [h1]
    exact hS1
  obtain ⟨p2, h2⟩ := updateEnemyBehavior_eq none
    (updateEnemyBehavior none (createEnemy .scout 0) 0 0 0 0 0) 0 0 0 0 0
  have hfields : (updateEnemyBehavior none (createEnemy .scout 0) 0 0 0 0 0).position
        = (createEnemy .scout 0).position ∧
      (updateEnemyBehavior none (createEnemy .scout 0) 0 0 0 0 0).type
        = (createEnemy .scout 0).type ∧
      (updateEnemyBehavior none (createEnemy .scout 0) 0 0 0 0 0).detectionRange
        = (createEnemy .scout 0).detectionRange ∧
      (updateEnemyBehavior none (createEnemy .scout 0) 0 0 0 0 0).attackRange
        = (createEnemy .scout 0).attackRange := by
    rw [h1]
    exact ⟨rfl, rfl, rfl, rfl⟩
  have hb2 : (updateEnemyBehavior none
      (updateEnemyBehavior none (createEnemy .scout 0) 0 0 0 0 0)
      0 0 0 0 0).behavior = .attack := by
    rw [h2, hfields.1, hfields.2.1, hfields.2.2.1, hfields.2.2.2, hb1, hd]
    show behaviorState .scout .chase 0 (enemyDetectionRange .scout)
      (enemyAttackRange .scout) = .attack
    have hns : ¬(EnemyType.scout = EnemyType.flyer) := by simp
    simp only [behaviorState, if_neg hns]
    norm_num [enemyDetectionRange, enemyAttackRange]
  rw [hb1, hb2]
  simp

/-- C5 (amended): for an agent with archetype stats, behaviour evaluation
at a fixed distance is idempotent for flyers, and for ground archetypes it
stabilises after at most two evaluations: a third evaluation at the same
distance returns the state the second produced. -/
theorem updateEnemyBehavior_two_step_stable (hf : Option (ℝ → ℝ → ℝ))
    (e : AlienEnemy) (pp : Vec3) (r1 r2 r3 r4 : ℝ)
    (hdet : e.detectionRange = enemyDetectionRange e.type)
    (hatt : e.attackRange = enemyAttackRange e.type) :
    (updateEnemyBehavior hf
        (updateEnemyBehavior hf (updateEnemyBehavior hf e pp r1 r2 r3 r4)
          pp r1 r2 r3 r4)
        pp r1 r2 r3 r4).behavior =
      (updateEnemyBehavior hf (updateEnemyBehavior hf e pp r1 r2 r3 r4)
        pp r1 r2 r3 r4).behavior ∧
    (e.type = .flyer →
      (updateEnemyBehavior hf (updateEnemyBehavior hf e pp r1 r2 r3 r4)
        pp r1 r2 r3 r4).behavior =
        (updateEnemyBehavior hf e pp r1 r2 r3 r4).behavior) := by
  obtain ⟨p1, h1⟩ := updateEnemyBehavior_eq hf e pp r1 r2 r3 r4
  obtain ⟨p2, h2⟩ := updateEnemyBehavior_eq hf
    (updateEnemyBehavior hf e pp r1 r2 r3 r4) pp r1 r2 r3 r4
  obtain ⟨p3, h3⟩ := updateEnemyBehavior_eq hf
    (updateEnemyBehavior hf (updateEnemyBehavior hf e pp r1 r2 r3 r4)
      pp r1 r2 r3 r4) pp r1 r2 r3 r4
  have f1p : (updateEnemyBehavior hf e pp r1 r2 r3 r4).position = e.position := by
    rw [h1]
  have f1t : (updateEnemyBehavior hf e pp r1 r2 r3 r4).type = e.type := by
    rw [h1]
  have f1d : (updateEnemyBehavior hf e pp r1 r2 r3 r4).detectionRange
      = e.detectionRange := by
    rw [h1]
  have f1a : (updateEnemyBehavior hf e pp r1 r2 r3 r4).attackRange
      = e.attackRange := by
    rw [h1]
  have f1b : (updateEnemyBehavior hf e pp r1 r2 r3 r4).behavior
      = behaviorState e.type e.behavior (e.position.distanceTo pp)
        e.detectionRange e.attackRange := by
    rw [h1]
  have f2p : (updateEnemyBehavior hf (updateEnemyBehavior hf e pp r1 r2 r3 r4)
      pp r1 r2 r3 r4).position = e.position := by
    rw [h2]
    exact f1p
  have f2t : (updateEnemyBehavior hf (updateEnemyBehavior hf e pp r1 r2 r3 r4)
      pp r1 r2 r3 r4).type = e.type := by
    rw [h2]
    exact f1t
  have f2d : (updateEnemyBehavior hf (updateEnemyBehavior hf e pp r1 r2 r3 r4)
      pp r1 r2 r3 r4).detectionRange = e.detectionRange := by
    rw [h2]
    exact f1d
  have f2a : (updateEnemyBehavior hf (updateEnemyBehavior hf e pp r1 r2 r3 r4)
      pp r1 r2 r3 r4).attackRange = e.attackRange := by
    rw [h2]
    exact f1a
  have f2b : (updateEnemyBehavior hf (updateEnemyBehavior hf e pp r1 r2 r3 r4)
      pp r1 r2 r3 r4).behavior
      = behaviorState e.type
          (behaviorState e.type e.behavior (e.position.distanceTo pp)
            e.detectionRange e.attackRange)
          (e.position.distanceTo pp) e.detectionRange e.attackRange := by
    rw [h2, f1t, f1p, f1d, f1a, f1b]
  have hpos : 0 < e.attackRange := by
    rw [hatt]; cases e.type <;> norm_num [enemyAttackRange]
  have hrange : e.attackRange ≤ e.detectionRange := by
    rw [hatt, hdet]
    cases e.type <;> norm_num [enemyAttackRange, enemyDetectionRange]
  constructor
  · have f3b : (updateEnemyBehavior hf
        (updateEnemyBehavior hf (updateEnemyBehavior hf e pp r1 r2 r3 r4)
          pp r1 r2 r3 r4)
        pp r1 r2 r3 r4).behavior
        = behaviorState e.type
            (behaviorState e.type
              (behaviorState e.type e.behavior (e.position.distanceTo pp)
                e.detectionRange e.attackRange)
              (e.position.distanceTo pp) e.detectionRange e.attackRange)
            (e.position.distanceTo pp) e.detectionRange e.attackRange := by
      rw [h3, f2t, f2p, f2d, f2a, f2b]
    rw [f3b, f2b]
    exact behaviorState_stable e.type e.behavior (e.position.distanceTo pp)
      e.detectionRange e.attackRange hpos hrange
  · intro hty
    rw [f2b, f1b]
    simp only [behaviorState, if_pos hty]

theorem updateEnemyBehavior_two_step_stable_witness :
    (updateEnemyBehavior none
        (updateEnemyBehavior none
          (updateEnemyBehavior none (createEnemy .scout 0) 0 0 0 0 0)
          0 0 0 0 0)
        0 0 0 0 0).behavior =
      (updateEnemyBehavior none
        (updateEnemyBehavior none (createEnemy .scout 0) 0 0 0 0 0)
        0 0 0 0 0).behavior :=
  (updateEnemyBehavior_two_step_stable none (createEnemy .scout 0)
    0 0 0 0 0 rfl rfl).1

/-- `damageEnemy` rewrites only the first enemy carrying the requested id,
and only when it is not yet destroyed. -/
theorem damageEnemy_append (pre post : List AlienEnemy) (e : AlienEnemy)
    (damage : ℝ) (hpre : ∀ o ∈ pre, o.id ≠ e.id) :
    damageEnemy (pre ++ e :: post) e.id damage =
      pre ++ (if e.destroyed then e else damageEnemyOne e damage) :: post := by
  induction pre with
  | nil => simp [damageEnemy]
  | cons a tl ih =>
    have ha : a.id ≠ e.id := hpre a (by simp)
    simp only [List.cons_append, damageEnemy, if_neg ha]
    exact congrArg (fun l => a :: l) (ih (fun o ho => hpre o (by simp [ho])))

/-- C7: damaging an existing, non-destroyed agent lowers its health by
exactly the damage amount and sets `destroyed` iff the new health is ≤ 0;
an already-destroyed agent is left untouched; zero damage on a live agent
(whose health is positive, the invariant every reachable agent satisfies)
changes nothing; and a freshly created scout (health 50) hit twice for 25
has health 25 / not destroyed, then health 0 / destroyed. -/
theorem damageEnemy_spec (pre post : List AlienEnemy) (e : AlienEnemy)
    (damage : ℝ) (hpre : ∀ o ∈ pre, o.id ≠ e.id) :
    (damageEnemy (pre ++ e :: post) e.id damage =
      pre ++ (if e.destroyed then e else damageEnemyOne e damage) :: post) ∧
    (e.destroyed = false →
      (damageEnemyOne e damage).health = e.health - damage ∧
      ((damageEnemyOne e damage).destroyed = true ↔ e.health - damage ≤ 0)) ∧
    (e.destroyed = false → 0 < e.health → damageEnemyOne e 0 = e) ∧
    ((damageEnemy [createEnemy .scout 0] "enemy_0" 25).map
        (fun x => (x.health, x.destroyed)) = [(25, false)]) ∧
    ((damageEnemy (damageEnemy [createEnemy .scout 0] "enemy_0" 25) "enemy_0"
        25).map (fun x => (x.health, x.destroyed)) = [(0, true)]) := by
  refine ⟨damageEnemy_append pre post e damage hpre, ?_, ?_, ?_, ?_⟩
  · intro hdes
    refine ⟨rfl, ?_⟩
    show (if e.health - damage ≤ 0 then true else e.destroyed) = true ↔
      e.health - damage ≤ 0
    by_cases hh : e.health - damage ≤ 0
    · simp [hh]
    · simp [hh, hdes]
  · intro hdes hpos
    obtain ⟨pos, h, mh, sp, la, ty, idv, de, ad, dr, ar, beh, pt, lp, fh, cr, ca⟩ := e
    simp only at hdes hpos
    subst hdes
    simp only [damageEnemyOne, sub_zero]
    rw [if_neg (not_le.mpr hpos)]
  · have hid : (createEnemy EnemyType.scout 0).id = "enemy_0" := rfl
    simp only [damageEnemy, hid, if_pos rfl]
    norm_num [createEnemy, enemyHealth, damageEnemyOne]
  · have hid : (createEnemy EnemyType.scout 0).id = "enemy_0" := rfl
    have hid2 : "enemy_" ++ toString 0 = "enemy_0" := rfl
    simp only [damageEnemy, hid, if_pos rfl]
    norm_num [createEnemy, enemyHealth, damageEnemyOne, damageEnemy, hid2]

theorem damageEnemy_spec_witness :
    (∀ o ∈ ([] : List AlienEnemy), o.id ≠ (createEnemy .scout 0).id) ∧
    damageEnemy [createEnemy .scout 0] (createEnemy .scout 0).id 0 =
      [createEnemy .scout 0] := by
  have h := damageEnemy_spec [] [] (createEnemy .scout 0) 0 (by simp)
  refine ⟨by simp, ?_⟩
  have h1 := h.1
  have h3 := h.2.2.1 rfl (by norm_num [createEnemy, enemyHealth])
  simpa [h3] using h1

/-! ## Wave Scheduler

Translated from `AlienEnemyManager` (`initializeWaves`, `spawnWave`,
`updateWaveSpawning`).  A `setTimeout` registration is modelled as a
`SpawnEvent` value recording its delay and the archetype pool the spawn
will draw from when it fires. -/

/-- Translation of the `EnemyWave` interface. -/
structure EnemyWave where
  enemies : ℕ
  types : List EnemyType
  spawnDelay : ℝ
  completed : Bool

/-- The wave-related slice of the manager state (`waves`, `currentWave`). -/
structure WaveState where
  waves : List EnemyWave
  currentWave : ℕ

/-- A scheduled spawn: the `setTimeout` delay in milliseconds and the
wave's archetype pool sampled at fire time. -/
structure SpawnEvent where
  delayMs : ℝ
  pool : List EnemyType

/-- Translation of `spawnWave`: look up the requested wave (the current
wave when no index is passed); no-op if missing or completed; otherwise
schedule one spawn per enemy at `i * spawnDelay * 1000` ms, mark the wave
completed and advance the wavepointer immediately. -/
noncomputable def spawnWave (s : WaveState) (waveNumber : Option ℕ) :
    WaveState × List SpawnEvent :=
  let idx := waveNumber.getD s.currentWave
  match s.waves.get? idx with
  | none => (s, [])
  | some wave =>
    if wave.completed then (s, [])
    else
      ({ waves := s.waves.set idx { wave with completed := true },
         currentWave := s.currentWave + 1 },
       (List.range wave.enemies).map
         (fun (i : ℕ) => ⟨(i : ℝ) * wave.spawnDelay * 1000, wave.types⟩))

/-- The five waves of `initializeWaves`. -/
def initializeWaves : List EnemyWave :=
  [⟨8, [.scout, .scout, .scout, .warrior], 2, false⟩,
   ⟨12, [.scout, .warrior, .warrior, .heavy], 1.5, false⟩,
   ⟨15, [.warrior, .heavy, .flyer, .heavy], 1, false⟩,
   ⟨20, [.flyer, .flyer, .warrior, .heavy], 0.8, false⟩,
   ⟨25, [.scout, .warrior, .heavy, .flyer], 0.5, false⟩]

/-- C6: `spawnWave` on a missing or completed wave is a silent no-op; on a
valid uncompleted wave with n enemies and delay d it schedules exactly n
spawn events at delays i × d seconds (i = 0..n−1, i·d·1000 ms), marks the
wave completed and advances the current-wave pointer immediately at
dispatch time. -/
theorem spawnWave_spec (s : WaveState) (waveNumber : Option ℕ) :
    (s.waves.get? (waveNumber.getD s.currentWave) = none →
      spawnWave s waveNumber = (s, [])) ∧
    (∀ w, s.waves.get? (waveNumber.getD s.currentWave) = some w →
      w.completed = true → spawnWave s waveNumber = (s, [])) ∧
    (∀ w, s.waves.get? (waveNumber.getD s.currentWave) = some w →
      w.completed = false →
      (spawnWave s waveNumber).1.waves =
        s.waves.set (waveNumber.getD s.currentWave) { w with completed := true } ∧
      (spawnWave s waveNumber).1.currentWave = s.currentWave + 1 ∧
      (spawnWave s waveNumber).2 =
        (List.range w.enemies).map
          (fun (i : ℕ) => ⟨(i : ℝ) * w.spawnDelay * 1000, w.types⟩) ∧
      (spawnWave s waveNumber).2.length = w.enemies) := by
  refine ⟨fun h => ?_, fun w h hc => ?_, fun w h hc => ?_⟩ <;>
    rw [List.get?_eq_getElem?] at h
  · simp [spawnWave, h]
  · simp [spawnWave, h, hc]
  · simp only [spawnWave, List.get?_eq_getElem?, h, hc]
    exact ⟨rfl, rfl, rfl, by simp⟩

theorem spawnWave_spec_witness :
    (spawnWave ⟨[⟨3, [.scout], 1, false⟩], 0⟩ (some 0)).1.waves =
      [⟨3, [.scout], 1, true⟩] ∧
    (spawnWave ⟨[⟨3, [.scout], 1, false⟩], 0⟩ (some 0)).1.currentWave = 1 ∧
    (spawnWave ⟨[⟨3, [.scout], 1, false⟩], 0⟩ (some 0)).2.map
      SpawnEvent.delayMs = [0, 1000, 2000] := by
  have h := (spawnWave_spec ⟨[⟨3, [.scout], 1, false⟩], 0⟩ (some 0)).2.2
    ⟨3, [.scout], 1, false⟩ rfl rfl
  refine ⟨?_, h.2.1, ?_⟩
  · rw [h.1]
    rfl
  · rw [h.2.2.1]
    norm_num [List.range_succ]

/-! ## Weapon System

Translated from `WeaponSystem.ts` (src/project).  `Date.now()` is the
explicit `now` argument; the mesh/glow construction is scene-side.  The
auto-reload `setTimeout` in `update` is modelled by the returned flag
(true when a reload was scheduled) together with `reload`, the effect the
timeout runs 2000 ms later. -/

namespace WeaponSystem

/-- Translation of the `Projectile` interface (minus the mesh handle;
`position` is `mesh.position`). -/
structure Projectile where
  position : Vec3
  velocity : Vec3
  damage : ℝ
  range : ℝ
  distanceTraveled : ℝ
  id : String

/-- The weapon fields of the `WeaponSystem` class. -/
structure WeaponState where
  projectiles : List Projectile
  projectileCount : ℕ
  currentAmmo : ℤ
  maxAmmo : ℤ
  lastFired : ℝ
  fireRate : ℝ

/-- The field initialisers of the class: 30/30 ammo, 200 ms fire rate. -/
def initialState : WeaponState :=
  { projectiles := [], projectileCount := 0, currentAmmo := 30, maxAmmo := 30,
    lastFired := 0, fireRate := 200 }

/-- Translation of `WeaponSystem.fire`. -/
noncomputable def fire (s : WeaponState) (now : ℝ)
    (position direction : Vec3) : WeaponState :=
  if now - s.lastFired < s.fireRate ∨ s.currentAmmo ≤ 0 then s
  else
    { s with
      lastFired := now,
      currentAmmo := s.currentAmmo - 1,
      projectileCount := s.projectileCount + 1,
      projectiles := s.projectiles ++
        [{ position := position, velocity := (50 : ℝ) • direction,
           damage := 25, range := 100, distanceTraveled := 0,
           id := "projectile_" ++ toString s.projectileCount }] }

/-- Translation of `WeaponSystem.update`: advance each projectile by
`velocity * deltaTime`, drop those whose travelled distance exceeds their
range, and report whether an auto-reload was scheduled
(`currentAmmo === 0`). -/
noncomputable def update (s : WeaponState) (deltaTime : ℝ) :
    WeaponState × Bool :=
  let moved := s.projectiles.map (fun p =>
    let movement := deltaTime • p.velocity
    { p with
      position := p.position + movement,
      distanceTraveled := p.distanceTraveled + movement.length })
  let remaining := moved.filter
    (fun p => if p.distanceTraveled > p.range then false else true)
  ({ s with projectiles := remaining }, decide (s.currentAmmo = 0))

/-- The effect the scheduled auto-reload timeout runs 2000 ms later:
`this.currentAmmo = this.maxAmmo`. -/
def reload (s : WeaponState) : WeaponState := { s with currentAmmo := s.maxAmmo }

end WeaponSystem

/-- C10: ammo stays within [0, maxAmmo] across fire and reload; a fire
call inside the 200 ms fire-rate window or with ammo ≤ 0 is a complete
no-op (same state: no projectile, ammo and lastFired untouched); a
successful fire decrements ammo by exactly 1, appends exactly one
projectile and stamps lastFired. -/
theorem fire_spec (s : WeaponSystem.WeaponState) (now : ℝ)
    (position direction : Vec3) :
    (0 ≤ s.currentAmmo ∧ s.currentAmmo ≤ s.maxAmmo →
      0 ≤ (WeaponSystem.fire s now position direction).currentAmmo ∧
      (WeaponSystem.fire s now position direction).currentAmmo ≤
        (WeaponSystem.fire s now position direction).maxAmmo) ∧
    (now - s.lastFired < s.fireRate ∨ s.currentAmmo ≤ 0 →
      WeaponSystem.fire s now position direction = s) ∧
    (¬(now - s.lastFired < s.fireRate ∨ s.currentAmmo ≤ 0) →
      (WeaponSystem.fire s now position direction).currentAmmo =
        s.currentAmmo - 1 ∧
      (WeaponSystem.fire s now position direction).projectiles.length =
        s.projectiles.length + 1 ∧
      (WeaponSystem.fire s now position direction).lastFired = now) ∧
    (0 ≤ s.maxAmmo →
      0 ≤ (WeaponSystem.reload s).currentAmmo ∧
      (WeaponSystem.reload s).currentAmmo ≤ (WeaponSystem.reload s).maxAmmo) := by
  refine ⟨?_, fun hcond => ?_, fun hcond => ?_, fun hmax => ?_⟩
  · intro hinv
    by_cases hcond : now - s.lastFired < s.fireRate ∨ s.currentAmmo ≤ 0
    · simp only [WeaponSystem.fire, if_pos hcond]
      exact hinv
    · have hammo : 0 < s.currentAmmo := by
        rcases not_or.mp hcond with ⟨_, h2⟩
        omega
      simp only [WeaponSystem.fire, if_neg hcond]
      constructor
      · show 0 ≤ s.currentAmmo - 1
        omega
      · show s.currentAmmo - 1 ≤ s.maxAmmo
        omega
  · simp only [WeaponSystem.fire, if_pos hcond]
  · refine ⟨?_, ?_, ?_⟩
    · simp only [WeaponSystem.fire, if_neg hcond]
    · simp [WeaponSystem.fire, if_neg hcond]
    · simp only [WeaponSystem.fire, if_neg hcond]
  · exact ⟨hmax, le_refl _⟩

theorem fire_spec_witness :
    (WeaponSystem.fire WeaponSystem.initialState 1000 0 0).currentAmmo = 29 ∧
    (WeaponSystem.fire WeaponSystem.initialState 1000 0 0).projectiles.length
      = 1 := by
  have h := (fire_spec WeaponSystem.initialState 1000 0 0).2.2.1 (by
    rw [not_or]
    constructor
    · norm_num [WeaponSystem.initialState]
    · norm_num [WeaponSystem.initialState])
  refine ⟨?_, ?_⟩
  · rw [h.1]
    norm_num [WeaponSystem.initialState]
  · rw [h.2.1]
    norm_num [WeaponSystem.initialState]

/-- C1: the procedural ground-height computation is NOT a deterministic
function of the coordinates: at (x, z) = (0, 0) a call whose `Math.random()`
draw is 0.9 carves a crater and returns −8, while a second call at the same
point whose draw is 0.5 returns 0.  The hidden state is the PRNG consumed by
`craterNoise`. -/
theorem calculateProceduralHeight_not_deterministic :
    calculateProceduralHeight 0.9 0 0 ≠ calculateProceduralHeight 0.5 0 0 := by
  rw [calculateProceduralHeight_origin, calculateProceduralHeight_origin]
  norm_num

end SkyportRush
